import Mathlib

/-!
Verification development for the ankibot repository (Telegram → OpenAI → Anki bot).

The definitions below are a shallow embedding of the program's source:
* the result cache (a `cachetools.TTLCache(maxsize=128, ttl=86400)` instance,
  modelled from the cachetools library's `Cache`/`TTLCache` implementation:
  per-item expiry `insert_time + ttl`, read-refreshed recency order, eviction
  of the least-recently-used live entry on insertion over capacity),
* the translation data model and sanitization (`src/translation.py`),
* the Anki sync session lifecycle (`src/anki_client.py`), with the external
  collaborators (filesystem, sync server, OpenAI) abstracted as an outcome
  oracle supplied per run,
* the bot orchestration layer (`src/bot.py`): request validation, the
  translate flow, the add-to-Anki flow and the callback handler.

Machine integers do not occur (Python ints are unbounded); times are `Nat`
(the monotone timer), and fallible Python code is embedded with `Except`.
-/

/-! ## Result cache: model of `cachetools.TTLCache`

State of one `TTLCache` instance.  `entries` is the TTL linked list together
with the data map: triples `(key, value, expires)` kept in expiry order
(monotone, since every insertion stamps `now + ttl`).  `lru` is the key order
of the `__links` ordered dict: front = least recently used = next eviction
victim.  A successful `__getitem__` calls `__getlink`, which moves the key to
the end of `__links` (reads refresh recency). -/
structure CacheModel (K V : Type) where
  maxsize : Nat
  ttl : Nat
  entries : List (K × V × Nat)
  lru : List K
deriving Repr

variable {K V : Type}

/-- Keys currently stored in the cache's data map. -/
def cacheKeys (st : CacheModel K V) : List K :=
  st.entries.map (fun e => e.1)

/-- `TTLCache.expire(time)`: drop every entry whose `expires` is `≤ time`
from the data map, the TTL list and the `__links` order. -/
def cacheExpire [DecidableEq K] (now : Nat) (st : CacheModel K V) : CacheModel K V :=
  let expiredKeys := (st.entries.filter (fun e => decide (e.2.2 ≤ now))).map (fun e => e.1)
  { st with
    entries := st.entries.filter (fun e => decide (now < e.2.2)),
    lru := st.lru.filter (fun x => decide (x ∉ expiredKeys)) }

/-- Evict the front of the `__links` order (the least-recently-used key). -/
def cachePopOne [DecidableEq K] (st : CacheModel K V) : CacheModel K V :=
  match st.lru with
  | [] => st
  | k :: rest =>
      { st with entries := st.entries.filter (fun e => decide (e.1 ≠ k)), lru := rest }

/-- `TTLCache.popitem()`: expire, then remove the least-recently-used live entry. -/
def cachePopitem [DecidableEq K] (now : Nat) (st : CacheModel K V) : CacheModel K V :=
  cachePopOne (cacheExpire now st)

/-- The `while self.__currsize + size > maxsize: self.popitem()` loop of
`Cache.__setitem__` for a new key of unit size, with fuel for termination
(the loop strictly shrinks the cache, so `entries.length + 1` fuel is enough). -/
def cacheMakeRoom [DecidableEq K] (now : Nat) : Nat → CacheModel K V → CacheModel K V
  | 0, st => st
  | Nat.succ fuel, st =>
      if st.maxsize < st.entries.length + 1 then
        match st.lru with
        | [] => st
        | _ :: _ => cacheMakeRoom now fuel (cachePopitem now st)
      else st

/-- `TTLCache.__setitem__` (the bot's `cache[translation_id] = translation`):
expire, make room if the key is new and the map is full, store the value,
stamp `expires = now + ttl`, and move the key to the most-recent end. -/
def cachePut [DecidableEq K] (now : Nat) (k : K) (v : V) (st : CacheModel K V) :
    CacheModel K V :=
  let st1 := cacheExpire now st
  let st2 := if k ∈ cacheKeys st1 then st1
             else cacheMakeRoom now (st1.entries.length + 1) st1
  { st2 with
    entries := st2.entries.filter (fun e => decide (e.1 ≠ k)) ++ [(k, v, now + st2.ttl)],
    lru := st2.lru.filter (fun x => decide (x ≠ k)) ++ [k] }

/-- `Cache.get` going through `TTLCache.__getitem__` (the bot's
`cache.get(arg)`): a present key is moved to the most-recent end of
`__links` by `__getlink` even when it turns out to be expired; the value is
returned only while `now < expires`; a missing or expired key yields `none`. -/
def cacheGet [DecidableEq K] (now : Nat) (k : K) (st : CacheModel K V) :
    Option V × CacheModel K V :=
  match st.entries.find? (fun e => decide (e.1 = k)) with
  | none => (none, st)
  | some e =>
      let st' := { st with lru := st.lru.filter (fun x => decide (x ≠ k)) ++ [k] }
      if e.2.2 ≤ now then (none, st') else (some e.2.1, st')

/-- The key that `popitem` would evict next: front of the recency order after
expiry. -/
def nextVictim [DecidableEq K] (now : Nat) (st : CacheModel K V) : Option K :=
  ((cacheExpire now st).lru).head?

/-- `CACHE_MAX_SIZE` from `src/bot.py`. -/
def CACHE_MAX_SIZE : Nat := 128

/-- `CACHE_TTL_SECONDS` from `src/bot.py` (24 hours). -/
def CACHE_TTL_SECONDS : Nat := 86400

/-! ## Translation data model (`src/translation.py`) -/

/-- `GermanVerbForms` pydantic model. -/
structure GermanVerbForms where
  praeteritum : String
  perfekt : String
deriving DecidableEq, Repr

/-- `TranslationContext` pydantic model (one sense of the input). -/
structure TranslationContext where
  text : String
  type : String
  label : String
  article : Option String
  plural : Option String
  verb_forms : Option GermanVerbForms
  translations : List String
  exampleSentence : String
deriving DecidableEq, Repr

/-- `AiTranslatorResponse` pydantic model. -/
structure AiTranslatorResponse where
  contexts : List TranslationContext
deriving DecidableEq, Repr

/-- `Translation` pydantic model: original request plus AI response. -/
structure Translation where
  request : String
  response : AiTranslatorResponse
deriving DecidableEq, Repr

/-- The characters removed by `_sanitize` (`"*_`[]<>&"`), by code point:
42 `*`, 95 `_`, 96 backtick, 91 `[`, 93 `]`, 60 `<`, 62 `>`, 38 `&`. -/
def bannedChar (c : Char) : Bool :=
  c.toNat == 42 || c.toNat == 95 || c.toNat == 96 || c.toNat == 91 ||
  c.toNat == 93 || c.toNat == 60 || c.toNat == 62 || c.toNat == 38

/-- `_sanitize`: delete every banned character from the string
(`str.translate` with a deletion table). -/
def sanitize (s : String) : String :=
  String.mk (s.data.filter (fun c => !bannedChar c))

/-- Python truthiness of `v.strip()`-style validation: a string passes the
`validate_non_empty_str` field validator iff it is non-empty after stripping
whitespace; `v.strip()` is empty exactly when every character of `v` is
whitespace (`not v or not v.strip()` rejects exactly those strings). -/
def nonEmptyStripped (s : String) : Bool := !(s.data.all Char.isWhitespace)

/-- The conjunction of the pydantic field validators of `TranslationContext`:
`text`, `type`, `label`, `example` non-empty after strip; `translations`
non-empty with every item non-empty after strip. -/
def validCtx (c : TranslationContext) : Bool :=
  nonEmptyStripped c.text && nonEmptyStripped c.type && nonEmptyStripped c.label &&
  nonEmptyStripped c.exampleSentence &&
  !c.translations.isEmpty && c.translations.all nonEmptyStripped

/-- The sanitization pass of `translate_ai` applied to one context: every
field is sanitized; `article` and `plural` only when truthy (non-`None` and
non-empty), mirroring `if ctx.article: ...`. -/
def sanitizeCtx (c : TranslationContext) : TranslationContext :=
  { c with
    text := sanitize c.text
    type := sanitize c.type
    label := sanitize c.label
    exampleSentence := sanitize c.exampleSentence
    translations := c.translations.map sanitize
    article := match c.article with
      | none => none
      | some a => if a == "" then some a else some (sanitize a)
    plural := match c.plural with
      | none => none
      | some p => if p == "" then some p else some (sanitize p)
    verb_forms := match c.verb_forms with
      | none => none
      | some vf => some { praeteritum := sanitize vf.praeteritum,
                          perfekt := sanitize vf.perfekt } }

/-- `translate_ai`, from the point where the collaborator's JSON has been
parsed into an `AiTranslatorResponse` candidate: pydantic validation of every
context (rejecting the whole response otherwise, which surfaces as an
exception in the caller), then the sanitization pass, then wrapping with the
original request. -/
def translate_ai (request : String) (resp : AiTranslatorResponse) :
    Except String Translation :=
  if resp.contexts.all validCtx then
    .ok { request := request, response := { contexts := resp.contexts.map sanitizeCtx } }
  else
    .error "validation error"

/-! ## Anki sync session (`src/anki_client.py`)

The external world (filesystem, Anki library, sync server) is abstracted as
an outcome oracle `AnkiEnv`: one boolean per fallible external call, plus the
text of the underlying exception where the code interpolates it, plus the
`required` value of the first sync result.  The session itself is the exact
control flow of `AnkiSession.__enter__`/`__exit__`/`_cleanup`/`add_card`/
`sync` over that oracle. -/

/-- The exceptions that can travel through the session code.  `closeError`
and `removeError` stand for exceptions raised inside `_cleanup` by
`collection.close()` and `os.remove` (both are caught there);
`otherError` is any other exception (e.g. from the `Collection`
constructor), `runtimeError` is the `RuntimeError` of `add_card`. -/
inductive AnkiExc where
  | loginError (msg : String)
  | downloadError (msg : String)
  | uploadError (msg : String)
  | runtimeError (msg : String)
  | otherError (msg : String)
  | closeError (msg : String)
  | removeError (msg : String)
deriving DecidableEq, Repr

/-- Outcome oracle for one session: which external calls succeed. -/
structure AnkiEnv where
  /-- a stale file occupies the chosen temp path before the session -/
  staleFileExists : Bool
  /-- `Collection(self.temp_path)` succeeds -/
  createOk : Bool
  createExcMsg : String
  /-- whether a failing `Collection` constructor leaves the file behind -/
  createLeavesFile : Bool
  /-- `collection.sync_login(...)` succeeds -/
  loginOk : Bool
  loginExcMsg : String
  /-- the initial `collection.sync_collection(...)` succeeds -/
  syncOk : Bool
  /-- `result.required` of the initial sync (3 = FULL_DOWNLOAD) -/
  syncRequired : Nat
  syncExcMsg : String
  /-- `collection.full_upload_or_download(...)` succeeds -/
  fullDownloadOk : Bool
  fullDownloadExcMsg : String
  /-- outcome of the n-th `add_card` call (missing entries succeed) -/
  addCardOk : List Bool
  addCardExcMsg : String
  /-- the final `sync_collection` in `AnkiSession.sync` succeeds -/
  pushOk : Bool
  pushExcMsg : String
  /-- `collection.close()` inside `_cleanup` succeeds -/
  cleanupCloseOk : Bool
  /-- `os.remove(self.temp_path)` inside `_cleanup` succeeds -/
  cleanupRemoveOk : Bool

/-- Observable state of one session. -/
structure SessionState where
  /-- the local working-copy file exists -/
  fileExists : Bool
  /-- an open `Collection` handle exists -/
  collectionOpen : Bool
  /-- number of notes actually added to the local collection -/
  notesAdded : Nat
  /-- the Python `cards_added` counter of `add_to_anki` -/
  cardsAdded : Nat
  /-- `_cleanup` has run -/
  cleanupRan : Bool
deriving DecidableEq, Repr

/-- `self.collection.close()` as called from `_cleanup`. -/
def closeOp (env : AnkiEnv) (s : SessionState) : Except AnkiExc SessionState :=
  if env.cleanupCloseOk then .ok { s with collectionOpen := false }
  else .error (.closeError "close failed")

/-- `os.remove(self.temp_path)` as called from `_cleanup`. -/
def removeOp (env : AnkiEnv) (s : SessionState) : Except AnkiExc SessionState :=
  if env.cleanupRemoveOk then .ok { s with fileExists := false }
  else .error (.removeError "remove failed")

/-- `AnkiSession._cleanup`: close the collection if one exists and delete the
temp file if it exists; each step is wrapped in its own `try/except` that
logs and swallows the failure, so `_cleanup` as a whole is total. -/
def cleanup (env : AnkiEnv) (s : SessionState) : SessionState :=
  let s1 :=
    if s.collectionOpen then
      match closeOp env s with
      | .ok t => t
      | .error _ => s
    else s
  let s2 :=
    if s1.fileExists then
      match removeOp env s1 with
      | .ok t => t
      | .error _ => s1
    else s1
  { s2 with cleanupRan := true }

/-- Session state at the top of `__enter__`: the temp path has been chosen
and a stale file at that path, if any, removed (`os.remove` outside the
`try`, modelled with standard filesystem semantics: removing an existing
file succeeds). -/
def initState (_env : AnkiEnv) : SessionState :=
  { fileExists := false, collectionOpen := false, notesAdded := 0,
    cardsAdded := 0, cleanupRan := false }

/-- `AnkiSession.__enter__`: create the collection, login, pull (with full
download when `required == 3`).  Any exception inside the `try` triggers
`self._cleanup()` and is re-raised; the wrapped exception kinds are exactly
those of the source. -/
def enterSession (env : AnkiEnv) : Except (SessionState × AnkiExc) SessionState :=
  let s0 := initState env
  if env.createOk then
    let s1 := { s0 with fileExists := true, collectionOpen := true }
    if env.loginOk then
      if env.syncOk then
        if env.syncRequired = 3 then
          if env.fullDownloadOk then .ok s1
          else .error (cleanup env s1,
            .downloadError ("Could not fetch collection: " ++ env.fullDownloadExcMsg))
        else .ok s1
      else .error (cleanup env s1,
        .downloadError ("Could not fetch collection: " ++ env.syncExcMsg))
    else .error (cleanup env s1,
      .loginError ("Could not authenticate: " ++ env.loginExcMsg))
  else
    .error (cleanup env { s0 with fileExists := env.createLeavesFile },
      .otherError env.createExcMsg)

/-- Whether the n-th `add_card` call succeeds (out-of-range oracle entries
succeed). -/
def addCardCallOk (env : AnkiEnv) (n : Nat) : Bool :=
  env.addCardOk.getD n true

/-- The loop body of `add_to_anki` inside the `with` block: for each of the
`n` contexts, one forward and one reverse `add_card`, then
`cards_added += 2`.  A failing `add_card` raises `RuntimeError`, which
escapes the `with` body. -/
def addCards (env : AnkiEnv) : Nat → SessionState →
    Except (SessionState × AnkiExc) SessionState
  | 0, s => .ok s
  | Nat.succ m, s =>
    if addCardCallOk env s.notesAdded then
      let s1 := { s with notesAdded := s.notesAdded + 1 }
      if addCardCallOk env s1.notesAdded then
        addCards env m { s1 with notesAdded := s1.notesAdded + 1,
                                 cardsAdded := s1.cardsAdded + 2 }
      else .error (s1, .runtimeError env.addCardExcMsg)
    else .error (s, .runtimeError env.addCardExcMsg)

/-- One full `with AnkiSession(...)` execution as performed by `add_to_anki`
for a translation with `numContexts` contexts: `__enter__`, the card loop,
`anki.sync()`, then `__exit__` (which runs `_cleanup`); when `__enter__`
itself raises, its internal `_cleanup` has already run and `__exit__` is
never invoked.  Returns the final state and the exception propagated to the
caller, if any. -/
def runAnkiSession (env : AnkiEnv) (numContexts : Nat) :
    SessionState × Option AnkiExc :=
  match enterSession env with
  | .error (s, e) => (s, some e)
  | .ok s =>
    match addCards env numContexts s with
    | .error (s1, e) => (cleanup env s1, some e)
    | .ok s1 =>
      if env.pushOk then (cleanup env s1, none)
      else (cleanup env s1,
        some (.uploadError ("Could not sync to server: " ++ env.pushExcMsg)))

/-- The text of an exception as interpolated by `add_to_anki`'s handlers. -/
def excText : AnkiExc → String
  | .loginError m => m
  | .downloadError m => m
  | .uploadError m => m
  | .runtimeError m => m
  | .otherError m => m
  | .closeError m => m
  | .removeError m => m

/-! ## Formatting helpers and cards (`src/bot.py`) -/

/-- `_format_article`: `f"{article} " if article else ""` (Python truthiness:
`None` and `""` give `""`). -/
def format_article (article : Option String) : String :=
  match article with
  | none => ""
  | some a => if a == "" then "" else a ++ " "

/-- `_format_verb_forms`. -/
def format_verb_forms (vf : Option GermanVerbForms) : String :=
  match vf with
  | none => ""
  | some v => " (" ++ v.praeteritum ++ ", " ++ v.perfekt ++ ")"

/-- `_format_plural`. -/
def format_plural (plural : Option String) : String :=
  match plural with
  | none => ""
  | some p => if p == "" then "" else " (pl. " ++ p ++ ")"

/-- `_format_label`. -/
def format_label (word_type : Option String) (label : Option String) : String :=
  match label with
  | none => ""
  | some l =>
    let pre := match word_type with
      | none => ""
      | some t => if t == "" then "" else t ++ ", "
    " \\[" ++ pre ++ l ++ "]"

/-- `LANGUAGE_FLAGS`. -/
def LANGUAGE_FLAGS : List (String × String) :=
  [("GERMAN", "🇩🇪"), ("ENGLISH", "🇬🇧"), ("UKRAINIAN", "🇺🇦"),
   ("FRENCH", "🇫🇷"), ("SPANISH", "🇪🇸")]

/-- Python `str.rstrip("\n")`: drop trailing newline characters. -/
def rstripNewlines (s : String) : String :=
  String.mk ((s.data.reverse.dropWhile (fun c => c == '\n')).reverse)

/-- `translation_to_md` (`CONFIG.source_language` passed explicitly). -/
def translation_to_md (sourceLanguage : String) (t : Translation) : String :=
  let flag := match (LANGUAGE_FLAGS.find? (fun p => p.1 == sourceLanguage.toUpper)) with
    | some p => p.2 ++ " "
    | none => ""
  let lines := [flag ++ "Translation for *" ++ t.request ++ "*\n"] ++
    (t.response.contexts.flatMap (fun ctx =>
      ["*" ++ format_article ctx.article ++ ctx.text ++ "*" ++
         format_verb_forms ctx.verb_forms ++ format_plural ctx.plural ++
         format_label (some ctx.type) (some ctx.label),
       String.intercalate ", " ctx.translations,
       "💬 _" ++ ctx.exampleSentence ++ "_\n"]))
  rstripNewlines (String.intercalate "\n" lines)

/-- `context_to_card`: forward card (source → target). -/
def context_to_card (context : TranslationContext) : String × String :=
  (format_article context.article ++ context.text ++
     format_verb_forms context.verb_forms ++
     "<br><br><i>[" ++ context.type ++ ", " ++ context.label ++ "]</i>",
   String.intercalate ", " context.translations ++
     "<br><br><i>" ++ context.exampleSentence ++ "</i>")

/-- `context_to_reverse_card`: reverse card (target → source). -/
def context_to_reverse_card (context : TranslationContext) : String × String :=
  (String.intercalate ", " context.translations ++
     "<br><br><i>[" ++ context.type ++ ", " ++ context.label ++ "]</i>",
   format_article context.article ++ context.text ++
     format_verb_forms context.verb_forms ++
     "<br><br><i>" ++ context.exampleSentence ++ "</i>")

/-! ## Request validation and orchestration (`src/bot.py`) -/

/-- `MAX_REQUEST_SPACES`. -/
def MAX_REQUEST_SPACES : Nat := 4

/-- `MAX_REQUEST_BYTES` (64-byte Telegram callback limit minus the 6 bytes
of the `retry:` control prefix). -/
def MAX_REQUEST_BYTES : Nat := 58

/-- `request.count(" ")`: number of space characters. -/
def countSpaces (s : String) : Nat := s.data.count ' '

/-- `len(s.encode("utf-8"))`: UTF-8 byte length. -/
def utf8Len (s : String) : Nat := (s.data.map Char.utf8Size).sum

/-- The validation predicate of `translate`, with Python's Unicode-aware
`str.isalnum` supplied as a parameter (it agrees with ASCII
alphanumericity on ASCII characters): the request is valid iff it has at
most `MAX_REQUEST_SPACES` spaces, at most `MAX_REQUEST_BYTES` UTF-8 bytes,
and every character is alphanumeric or one of space, apostrophe, hyphen. -/
def validRequest (isalnum : Char → Bool) (s : String) : Bool :=
  !(decide (countSpaces s > MAX_REQUEST_SPACES) ||
    decide (utf8Len s > MAX_REQUEST_BYTES) ||
    !(s.data.all (fun c => isalnum c || c == ' ' || c == '\'' || c == '-')))

/-- `CALLBACK_RETRY`. -/
def CALLBACK_RETRY : String := "retry"

/-- `CALLBACK_ADD_TO_ANKI`. -/
def CALLBACK_ADD_TO_ANKI : String := "add_anki"

/-- A message sent to a chat by `bot.send_message`, together with the
`callback_data` payloads of the inline-keyboard buttons attached to it. -/
structure SentMsg where
  chatId : Int
  text : String
  buttons : List String
deriving DecidableEq, Repr

/-- The configuration consumed by the handlers (`CONFIG`), reduced to the
fields they read. -/
structure BotConfigModel where
  /-- chat ids present in `CONFIG.users` -/
  users : List Int
  /-- `CONFIG.users[chat_id].anki_deck` -/
  deckOf : Int → String
  /-- `CONFIG.source_language` -/
  sourceLanguage : String

/-- Environment of one handler activation: configuration, the outcome of the
`translate_ai` call (if reached), the `uuid4` token that `translate` would
generate, the current time of the cache's timer, and the Anki outcome
oracle. -/
structure BotEnv where
  cfg : BotConfigModel
  aiResult : Except String Translation
  freshToken : String
  now : Nat
  anki : AnkiEnv
  isalnum : Char → Bool

/-- The bot's result cache: string tokens to translations, `maxsize=128`,
`ttl=86400`. -/
def BotCacheState : Type := CacheModel String Translation

/-- The empty bot cache. -/
def emptyBotCache : BotCacheState :=
  { maxsize := CACHE_MAX_SIZE, ttl := CACHE_TTL_SECONDS, entries := [], lru := [] }

/-- The rejection text of `translate`. -/
def rejectText : String := "Are you kidding me? 🫠 Go to Google Translate or smth."

/-- The translation-failure text of `translate`. -/
def translationFailText (e : String) : String :=
  "Oh no! Error happened! 😮\n```\n" ++ (e ++ "\n```")

/-- The full-success report of `add_to_anki`. -/
def successText (cardsAdded : Nat) (request : String) : String :=
  "Added " ++ (toString cardsAdded ++ (" Anki cards for *" ++ (request ++
    ("* 😎\n\n✅ Anki collection fetched\n✅ Cards added\n" ++
     "✅ Collection synced back to server\n\nDon't forget to sync!"))))

/-- The authentication-failure report of `add_to_anki`. -/
def loginFailText (e : String) : String :=
  ("Oh no! Could not authenticate with Anki sync server! 😮\n" ++
   "Check your username/password in config.\n```\n") ++ (e ++ "\n```")

/-- The pull-failure report of `add_to_anki`. -/
def downloadFailText (e : String) : String :=
  ("Oh no! Could not download Anki collection! 😮\n" ++
   "Check if your sync server is running.\n```\n") ++ (e ++ "\n```")

/-- The push-failure report of `add_to_anki` (cards may exist locally but
were not synced). -/
def uploadFailText (e : String) : String :=
  ("Oh no! Could not sync Anki collection back to the server! 😮\n" ++
   "Cards may have been added locally but not synced.\n```\n") ++ (e ++ "\n```")

/-- The catch-all report of `add_to_anki`. -/
def unexpectedText (e : String) : String :=
  "Oh no! Unexpected error! 😮\n```\n" ++ (e ++ "\n```")

/-- The stale-correlation notice of `callback_query_handler`. -/
def staleText : String := "Translation is stale, try another one or retry this one 🙈"

/-- `translate(chat_id, request)`: validation, the `translate_ai` call, the
cache insert, and the reply with the two inline buttons
(`add_anki:<token>` and `retry:<request>`).  Returns the messages sent, the
new cache state, and whether the analysis collaborator was called. -/
def translateOp (env : BotEnv) (st : BotCacheState) (chatId : Int)
    (request : String) : List SentMsg × BotCacheState × Bool :=
  if !validRequest env.isalnum request then
    ([{ chatId := chatId, text := rejectText, buttons := [] }], st, false)
  else
    match env.aiResult with
    | .error e =>
        ([{ chatId := chatId, text := translationFailText e, buttons := [] }], st, true)
    | .ok t =>
        let tok := env.freshToken
        let st' := cachePut env.now tok t st
        ([{ chatId := chatId,
            text := translation_to_md env.cfg.sourceLanguage t,
            buttons := [CALLBACK_ADD_TO_ANKI ++ ":" ++ tok,
                        CALLBACK_RETRY ++ ":" ++ request] }], st', true)

/-- `add_to_anki(chat_id, translation)`: run the session and render exactly
one outcome message, matching the `except` clauses in source order. -/
def add_to_anki (env : BotEnv) (chatId : Int) (t : Translation) :
    List SentMsg × SessionState :=
  let r := runAnkiSession env.anki t.response.contexts.length
  match r.2 with
  | none =>
      ([{ chatId := chatId, text := successText r.1.cardsAdded t.request,
          buttons := [] }], r.1)
  | some (.loginError m) =>
      ([{ chatId := chatId, text := loginFailText m, buttons := [] }], r.1)
  | some (.downloadError m) =>
      ([{ chatId := chatId, text := downloadFailText m, buttons := [] }], r.1)
  | some (.uploadError m) =>
      ([{ chatId := chatId, text := uploadFailText m, buttons := [] }], r.1)
  | some e =>
      ([{ chatId := chatId, text := unexpectedText (excText e), buttons := [] }], r.1)

/-- `callback_query_handler(call)`: silent drop when the message is missing
or the chat is unauthorized; parse `"<command>:<argument>"` at the first
colon, ignoring payloads with no colon, an empty command (`pos <= 0`) or an
empty argument (`pos == len - 1`); dispatch to `translate` (retry) or to the
cache lookup and `add_to_anki` (add).  `fromUser` is the identity of the
user who pressed the button (`call.from_user`); the source never reads it.
Returns the messages sent, the new cache state, and whether an `AnkiSession`
was opened. -/
def callback_query_handler (env : BotEnv) (st : BotCacheState) (_fromUser : Int)
    (message : Option Int) (data : Option String) :
    List SentMsg × BotCacheState × Bool :=
  match message with
  | none => ([], st, false)
  | some chatId =>
    if chatId ∈ env.cfg.users then
      match data with
      | none => ([], st, false)
      | some d =>
        match d.data.findIdx? (fun c => c == ':') with
        | none => ([], st, false)
        | some pos =>
          if pos = 0 ∨ pos = d.data.length - 1 then ([], st, false)
          else
            let command := String.mk (d.data.take pos)
            let arg := String.mk (d.data.drop (pos + 1))
            if command = CALLBACK_RETRY then
              let r := translateOp env st chatId arg
              (r.1, r.2.1, false)
            else if command = CALLBACK_ADD_TO_ANKI then
              let r := cacheGet env.now arg st
              match r.1 with
              | some t =>
                  let a := add_to_anki env chatId t
                  (a.1, r.2, true)
              | none =>
                  ([{ chatId := chatId, text := staleText, buttons := [] }], r.2, false)
            else ([], st, false)
    else ([], st, false)

/-! ## Derived predicates and concrete fixtures used by the theorems -/

/-- Substring test: `needle` occurs contiguously in `hay`. -/
def strContains (hay needle : String) : Bool :=
  (List.range (hay.data.length + 1)).any
    (fun i => needle.data.isPrefixOf (hay.data.drop i))

/-- Shape of a `str(uuid.uuid4())` correlation token: 36 characters, each of
UTF-8 size one (uuid4 text is ASCII hex digits and hyphens). -/
def uuidShape (tok : String) : Bool :=
  tok.data.length == 36 && tok.data.all (fun c => c.utf8Size == 1)

/-- No markup-breaking character occurs in the string. -/
def noBanned (s : String) : Bool := s.data.all (fun c => !bannedChar c)

/-- No markup-breaking character occurs in any field of the sense. -/
def ctxNoBanned (c : TranslationContext) : Bool :=
  noBanned c.text && noBanned c.type && noBanned c.label &&
  noBanned c.exampleSentence &&
  (match c.article with | none => true | some a => noBanned a) &&
  (match c.plural with | none => true | some p => noBanned p) &&
  (match c.verb_forms with
   | none => true
   | some vf => noBanned vf.praeteritum && noBanned vf.perfekt) &&
  c.translations.all noBanned

/-- An exception kind that does not originate inside `_cleanup`. -/
def notCleanupExc : AnkiExc → Bool
  | .closeError _ => false
  | .removeError _ => false
  | _ => true

/-- An all-success Anki outcome oracle, used as a concrete fixture. -/
def okAnkiEnv : AnkiEnv :=
  { staleFileExists := false, createOk := true, createExcMsg := "create boom",
    createLeavesFile := false, loginOk := true, loginExcMsg := "login boom",
    syncOk := true, syncRequired := 0, syncExcMsg := "sync boom",
    fullDownloadOk := true, fullDownloadExcMsg := "download boom",
    addCardOk := [], addCardExcMsg := "no note types",
    pushOk := true, pushExcMsg := "push boom",
    cleanupCloseOk := true, cleanupRemoveOk := true }

/-- A concrete bot environment fixture (authorized chat 7). -/
def sampleBotEnv : BotEnv :=
  { cfg := { users := [7], deckOf := fun _ => "German", sourceLanguage := "GERMAN" },
    aiResult := .error "api down",
    freshToken := "3f2504e0-4f89-41d3-9a0c-0305e82c3301",
    now := 0,
    anki := okAnkiEnv,
    isalnum := Char.isAlphanum }

/-- The sense of §8 of the spec ( `Hund` / `dog` ). -/
def hundContext : TranslationContext :=
  { text := "Hund", type := "noun", label := "animal", article := none,
    plural := none, verb_forms := none, translations := ["dog"],
    exampleSentence := "Der Hund bellt." }

/-- A context whose `label` consists of a single banned character: it passes
every pydantic validator, yet sanitization empties the field. -/
def starLabelContext : TranslationContext :=
  { hundContext with label := "*" }

/-- A concrete cached value. -/
def sampleTranslation : Translation :=
  { request := "Hund", response := { contexts := [hundContext] } }

/-- 128 insertions at time 0 with fresh tokens `t0` … `t127`: the cache is
exactly at capacity. -/
def cacheTrace0 : BotCacheState :=
  (List.range 128).foldl
    (fun st i => cachePut 0 ("t" ++ toString i) sampleTranslation st)
    emptyBotCache

/-- … then one `get` of the oldest-inserted token `t0`. -/
def cacheTrace1 : BotCacheState := (cacheGet 0 "t0" cacheTrace0).2

/-- … then a 129th insertion, which must evict. -/
def cacheTrace2 : BotCacheState := cachePut 0 "t128" sampleTranslation cacheTrace1

/-! ## Helper lemmas -/

theorem strNeAt (s t : String) (i : Nat) (h : s.data[i]? ≠ t.data[i]?) : s ≠ t :=
  fun he => h (by rw [he])

theorem constPrefix_getElem (p a : String) (i : Nat) (hp : i < p.data.length) :
    (p ++ a).data[i]? = p.data[i]? := by
  rw [String.data_append]
  exact List.getElem?_append_left hp

theorem utf8Len_append (a b : String) : utf8Len (a ++ b) = utf8Len a + utf8Len b := by
  simp [utf8Len, String.data_append]

theorem sum_map_ones (l : List Char) (h : ∀ c ∈ l, c.utf8Size = 1) :
    (l.map Char.utf8Size).sum = l.length := by
  induction l with
  | nil => rfl
  | cons c cs ih =>
    simp only [List.map_cons, List.sum_cons, List.length_cons]
    rw [h c (List.mem_cons_self c cs), ih (fun x hx => h x (List.mem_cons_of_mem c hx))]
    omega

theorem utf8Len_of_uuidShape (tok : String) (h : uuidShape tok = true) :
    utf8Len tok = 36 := by
  unfold uuidShape at h
  simp only [Bool.and_eq_true, beq_iff_eq, List.all_eq_true] at h
  unfold utf8Len
  rw [sum_map_ones tok.data (fun c hc => h.2 c hc), h.1]

theorem validRequest_bytes (isalnum : Char → Bool) (s : String)
    (h : validRequest isalnum s = true) : utf8Len s ≤ MAX_REQUEST_BYTES := by
  unfold validRequest at h
  simp only [Bool.not_eq_true', Bool.or_eq_false_iff, decide_eq_false_iff_not,
    Nat.not_lt] at h
  exact h.1.2

theorem retryPayloadBound (isalnum : Char → Bool) (req : String)
    (h : validRequest isalnum req = true) :
    utf8Len (CALLBACK_RETRY ++ ":" ++ req) ≤ 64 := by
  have hb := validRequest_bytes isalnum req h
  rw [utf8Len_append]
  have h6 : utf8Len (CALLBACK_RETRY ++ ":") = 6 := by decide
  simp only [MAX_REQUEST_BYTES] at hb
  omega

theorem addPayloadBound (tok : String) (h : uuidShape tok = true) :
    utf8Len (CALLBACK_ADD_TO_ANKI ++ ":" ++ tok) ≤ 64 := by
  have h36 := utf8Len_of_uuidShape tok h
  rw [utf8Len_append]
  have h9 : utf8Len (CALLBACK_ADD_TO_ANKI ++ ":") = 9 := by decide
  omega

/-! ## Claims -/

/-- C4: `translate` rejects a request — sending the user-visible rejection,
leaving the cache untouched and never calling the analysis collaborator —
exactly when the text has more than 4 spaces, more than 58 UTF-8 bytes, or a
character outside letters/digits/space/apostrophe/hyphen; at the boundaries,
4 spaces and 58 bytes pass while 5 spaces and 59 bytes are rejected. -/
theorem C4_request_validation :
    (∀ (isalnum : Char → Bool) (req : String),
        validRequest isalnum req = false ↔
          (MAX_REQUEST_SPACES < countSpaces req ∨
           MAX_REQUEST_BYTES < utf8Len req ∨
           ∃ c ∈ req.data, isalnum c = false ∧ c ≠ ' ' ∧ c ≠ '\'' ∧ c ≠ '-')) ∧
    (∀ (env : BotEnv) (st : BotCacheState) (chatId : Int) (req : String),
        validRequest env.isalnum req = false →
        translateOp env st chatId req =
          ([{ chatId := chatId, text := rejectText, buttons := [] }], st, false)) ∧
    validRequest Char.isAlphanum "hello there" = true ∧
    validRequest Char.isAlphanum "a b c d e" = true ∧
    validRequest Char.isAlphanum "a b c d e f" = false ∧
    validRequest Char.isAlphanum (String.mk (List.replicate 58 'a')) = true ∧
    validRequest Char.isAlphanum (String.mk (List.replicate 59 'a')) = false := by
  refine ⟨?_, ?_, by decide, by decide, by decide, by decide, by decide⟩
  · intro isalnum req
    unfold validRequest
    simp only [Bool.not_eq_false', Bool.or_eq_true, decide_eq_true_eq,
      Bool.not_eq_true', List.all_eq_false, Bool.or_eq_false_iff,
      beq_eq_false_iff_ne, beq_iff_eq, not_or, Bool.not_eq_true, ne_eq]
    tauto
  · intro env st chatId req h
    simp [translateOp, h]

/-- C4 witness: the 5-space boundary string is concretely rejected with the
rejection message and no collaborator call. -/
theorem C4_request_validation_witness :
    validRequest sampleBotEnv.isalnum "a b c d e f" = false ∧
    translateOp sampleBotEnv emptyBotCache 7 "a b c d e f" =
      ([{ chatId := 7, text := rejectText, buttons := [] }], emptyBotCache, false) :=
  ⟨by decide,
   C4_request_validation.2.1 sampleBotEnv emptyBotCache 7 "a b c d e f" (by decide)⟩

/-- C7: for every request accepted by validation the rendered retry payload
`retry:<text>` is at most 64 UTF-8 bytes, and the add payload
`add_anki:<36-character uuid token>` is at most 64 bytes; in particular both
button payloads produced by `translate` satisfy the transport's 64-byte
control-data limit. -/
theorem C7_payload_bounds :
    (∀ (isalnum : Char → Bool) (req : String),
        validRequest isalnum req = true →
        utf8Len (CALLBACK_RETRY ++ ":" ++ req) ≤ 64) ∧
    (∀ tok : String, uuidShape tok = true →
        utf8Len (CALLBACK_ADD_TO_ANKI ++ ":" ++ tok) ≤ 64) ∧
    (∀ (env : BotEnv) (st : BotCacheState) (chatId : Int) (req : String)
        (t : Translation),
        validRequest env.isalnum req = true →
        env.aiResult = .ok t →
        uuidShape env.freshToken = true →
        ∀ msg ∈ (translateOp env st chatId req).1, ∀ b ∈ msg.buttons,
          utf8Len b ≤ 64) := by
  refine ⟨retryPayloadBound, addPayloadBound, ?_⟩
  intro env st chatId req t hval hai htok msg hmsg b hb
  simp only [translateOp, hval, Bool.not_true, Bool.false_eq_true, if_false, hai] at hmsg
  simp only [List.mem_singleton] at hmsg
  subst hmsg
  simp only [List.mem_cons, List.mem_singleton, List.not_mem_nil, or_false] at hb
  rcases hb with hb | hb
  · subst hb; exact addPayloadBound env.freshToken htok
  · subst hb; exact retryPayloadBound env.isalnum req hval

/-- C7 witness: concrete bounds for an accepted request and a uuid token. -/
theorem C7_payload_bounds_witness :
    validRequest Char.isAlphanum "hello there" = true ∧
    uuidShape "3f2504e0-4f89-41d3-9a0c-0305e82c3301" = true ∧
    utf8Len (CALLBACK_RETRY ++ ":" ++ "hello there") ≤ 64 ∧
    utf8Len (CALLBACK_ADD_TO_ANKI ++ ":" ++ "3f2504e0-4f89-41d3-9a0c-0305e82c3301") ≤ 64 :=
  ⟨by decide, by decide,
   C7_payload_bounds.1 Char.isAlphanum "hello there" (by decide),
   C7_payload_bounds.2.1 "3f2504e0-4f89-41d3-9a0c-0305e82c3301" (by decide)⟩

/-- C8: for the `Hund` sense, the forward card's front contains `Hund` and
its back contains `dog`; the reverse card's front contains `dog` and its
back contains `Hund`. -/
theorem C8_card_contents :
    strContains (context_to_card hundContext).1 "Hund" = true ∧
    strContains (context_to_card hundContext).2 "dog" = true ∧
    strContains (context_to_reverse_card hundContext).1 "dog" = true ∧
    strContains (context_to_reverse_card hundContext).2 "Hund" = true := by
  decide

/-- C10: the callback handler's entire behavior (authorization, parsing,
dispatch, messages, cache and session effects) is a function of the carried
message's chat id and payload only — the identity of the activating user is
never consulted, so any two users activating the same control on the same
message get identical outcomes. -/
theorem C10_activation_user_independent :
    ∀ (env : BotEnv) (st : BotCacheState) (u1 u2 : Int) (message : Option Int)
      (data : Option String),
      callback_query_handler env st u1 message data =
      callback_query_handler env st u2 message data := by
  intro env st u1 u2 message data
  rfl

theorem cleanup_cleanupRan (env : AnkiEnv) (s : SessionState) :
    (cleanup env s).cleanupRan = true := rfl

theorem cleanup_fileExists (env : AnkiEnv) (s : SessionState)
    (h : env.cleanupRemoveOk = true) : (cleanup env s).fileExists = false := by
  cases hc : env.cleanupCloseOk <;> cases ho : s.collectionOpen <;>
    cases hf : s.fileExists <;>
    simp [cleanup, closeOp, removeOp, h, hc, ho, hf]

theorem cleanup_collectionOpen (env : AnkiEnv) (s : SessionState)
    (h : env.cleanupCloseOk = true) : (cleanup env s).collectionOpen = false := by
  cases hr : env.cleanupRemoveOk <;> cases ho : s.collectionOpen <;>
    cases hf : s.fileExists <;>
    simp [cleanup, closeOp, removeOp, h, hr, ho, hf]

theorem cleanup_notesAdded (env : AnkiEnv) (s : SessionState) :
    (cleanup env s).notesAdded = s.notesAdded := by
  cases hc : env.cleanupCloseOk <;> cases hr : env.cleanupRemoveOk <;>
    cases ho : s.collectionOpen <;> cases hf : s.fileExists <;>
    simp [cleanup, closeOp, removeOp, hc, hr, ho, hf]

theorem cleanup_cardsAdded (env : AnkiEnv) (s : SessionState) :
    (cleanup env s).cardsAdded = s.cardsAdded := by
  cases hc : env.cleanupCloseOk <;> cases hr : env.cleanupRemoveOk <;>
    cases ho : s.collectionOpen <;> cases hf : s.fileExists <;>
    simp [cleanup, closeOp, removeOp, hc, hr, ho, hf]

theorem enterSession_error_kind (env : AnkiEnv) (s : SessionState) (e : AnkiExc)
    (h : enterSession env = .error (s, e)) : notCleanupExc e = true := by
  unfold enterSession at h
  repeat split at h
  all_goals simp_all
  all_goals (obtain ⟨h1, h2⟩ := h ; subst h2 ; rfl)

theorem enterSession_error_state (env : AnkiEnv) (s : SessionState) (e : AnkiExc)
    (h : enterSession env = .error (s, e)) : ∃ s0, s = cleanup env s0 := by
  unfold enterSession at h
  repeat split at h
  all_goals simp_all
  all_goals (obtain ⟨h1, h2⟩ := h ; exact ⟨_, h1.symm⟩)

theorem addCards_error_kind (env : AnkiEnv) (n : Nat) (s s1 : SessionState)
    (e : AnkiExc) (h : addCards env n s = .error (s1, e)) :
    e = .runtimeError env.addCardExcMsg := by
  induction n generalizing s with
  | zero => simp [addCards] at h
  | succ m ih =>
    unfold addCards at h
    split at h
    · dsimp only at h
      split at h
      · exact ih _ h
      · simp_all
    · simp_all

theorem addCards_ok_inv (env : AnkiEnv) (n : Nat) (s s' : SessionState)
    (h : addCards env n s = .ok s') :
    s'.fileExists = s.fileExists ∧ s'.collectionOpen = s.collectionOpen := by
  induction n generalizing s with
  | zero => simp [addCards] at h; simp [h]
  | succ m ih =>
    unfold addCards at h
    split at h
    · dsimp only at h
      split at h
      · have hih := ih _ h
        simpa using hih
      · simp_all
    · simp_all

theorem addCards_error_inv (env : AnkiEnv) (n : Nat) (s s1 : SessionState)
    (e : AnkiExc) (h : addCards env n s = .error (s1, e)) :
    s1.fileExists = s.fileExists ∧ s1.collectionOpen = s.collectionOpen := by
  induction n generalizing s with
  | zero => simp [addCards] at h
  | succ m ih =>
    unfold addCards at h
    split at h
    · dsimp only at h
      split at h
      · have hih := ih _ h
        simpa using hih
      · injection h with hpair
        injection hpair with h1 h2
        subst h1
        exact ⟨rfl, rfl⟩
    · injection h with hpair
      injection hpair with h1 h2
      subst h1
      exact ⟨rfl, rfl⟩

theorem runAnkiSession_fst_cleanup (env : AnkiEnv) (n : Nat) :
    ∃ s0, (runAnkiSession env n).1 = cleanup env s0 := by
  unfold runAnkiSession
  cases h : enterSession env with
  | error p =>
    obtain ⟨s, e⟩ := p
    exact enterSession_error_state env s e h
  | ok s =>
    dsimp only
    cases h2 : addCards env n s with
    | error p =>
      obtain ⟨s1, e⟩ := p
      exact ⟨s1, rfl⟩
    | ok s1 =>
      dsimp only
      cases hp : env.pushOk <;>
        simp only [hp, Bool.false_eq_true, if_true, if_false] <;>
        exact ⟨s1, rfl⟩

theorem runAnkiSession_snd_kind (env : AnkiEnv) (n : Nat) (e : AnkiExc)
    (h : (runAnkiSession env n).2 = some e) : notCleanupExc e = true := by
  unfold runAnkiSession at h
  revert h
  cases he : enterSession env with
  | error p =>
    obtain ⟨s, e0⟩ := p
    intro h
    simp only [Option.some.injEq] at h
    subst h
    exact enterSession_error_kind env s e0 he
  | ok s =>
    dsimp only
    cases h2 : addCards env n s with
    | error p =>
      obtain ⟨s1, e0⟩ := p
      intro h
      simp only [Option.some.injEq] at h
      subst h
      rw [addCards_error_kind env n s s1 e0 h2]
      rfl
    | ok s1 =>
      dsimp only
      cases hp : env.pushOk <;>
        simp only [hp, Bool.false_eq_true, if_true, if_false] <;> intro h
      · simp only [Option.some.injEq] at h
        subst h
        rfl
      · simp at h

theorem runAnkiSession_loginFail (env : AnkiEnv) (n : Nat)
    (hc : env.createOk = true) (hl : env.loginOk = false) :
    (runAnkiSession env n).2 =
      some (.loginError ("Could not authenticate: " ++ env.loginExcMsg)) ∧
    (runAnkiSession env n).1.notesAdded = 0 := by
  have he : enterSession env =
      Except.error (cleanup env ⟨true, true, 0, 0, false⟩,
        AnkiExc.loginError ("Could not authenticate: " ++ env.loginExcMsg)) := by
    simp [enterSession, initState, hc, hl]
  unfold runAnkiSession
  rw [he]
  exact ⟨rfl, cleanup_notesAdded env ⟨true, true, 0, 0, false⟩⟩

/-- C1: after a session ends by any path (success or failure at creation,
authenticate, pull, a card mutation, or push), cleanup has run; any
exception propagated to the caller never originates inside `_cleanup`
(cleanup's own failures are swallowed); if cleanup's file removal succeeds
the working-copy file does not exist afterwards, and if its close succeeds
the collection handle is closed; and a session reaching and failing the
authenticate step propagates `AnkiLoginError` with zero card
mutations performed. -/
theorem C1_session_lifecycle_cleanup :
    ∀ (env : AnkiEnv) (n : Nat),
      (runAnkiSession env n).1.cleanupRan = true ∧
      (∀ e, (runAnkiSession env n).2 = some e → notCleanupExc e = true) ∧
      (env.cleanupRemoveOk = true → (runAnkiSession env n).1.fileExists = false) ∧
      (env.cleanupCloseOk = true → (runAnkiSession env n).1.collectionOpen = false) ∧
      (env.createOk = true → env.loginOk = false →
        (runAnkiSession env n).2 =
          some (.loginError ("Could not authenticate: " ++ env.loginExcMsg)) ∧
        (runAnkiSession env n).1.notesAdded = 0) := by
  intro env n
  obtain ⟨s0, hs0⟩ := runAnkiSession_fst_cleanup env n
  refine ⟨?_, ?_, ?_, ?_, ?_⟩
  · rw [hs0]; exact cleanup_cleanupRan env s0
  · exact fun e he => runAnkiSession_snd_kind env n e he
  · intro h; rw [hs0]; exact cleanup_fileExists env s0 h
  · intro h; rw [hs0]; exact cleanup_collectionOpen env s0 h
  · exact fun hc hl => runAnkiSession_loginFail env n hc hl

/-- C1 witness: a concrete session that fails at authenticate, with
succeeding cleanup operations. -/
theorem C1_session_lifecycle_cleanup_witness :
    ({ okAnkiEnv with loginOk := false } : AnkiEnv).cleanupRemoveOk = true ∧
    ({ okAnkiEnv with loginOk := false } : AnkiEnv).cleanupCloseOk = true ∧
    ({ okAnkiEnv with loginOk := false } : AnkiEnv).createOk = true ∧
    ({ okAnkiEnv with loginOk := false } : AnkiEnv).loginOk = false ∧
    (runAnkiSession { okAnkiEnv with loginOk := false } 2).1.cleanupRan = true ∧
    (runAnkiSession { okAnkiEnv with loginOk := false } 2).1.fileExists = false ∧
    (runAnkiSession { okAnkiEnv with loginOk := false } 2).1.collectionOpen = false ∧
    (runAnkiSession { okAnkiEnv with loginOk := false } 2).2 =
      some (.loginError ("Could not authenticate: " ++ "login boom")) ∧
    (runAnkiSession { okAnkiEnv with loginOk := false } 2).1.notesAdded = 0 := by
  have h := C1_session_lifecycle_cleanup { okAnkiEnv with loginOk := false } 2
  exact ⟨rfl, rfl, rfl, rfl, h.1, h.2.2.1 rfl, h.2.2.2.1 rfl,
    (h.2.2.2.2 rfl rfl).1, (h.2.2.2.2 rfl rfl).2⟩

theorem bannedChar_sanitize (s : String) :
    ∀ x ∈ (sanitize s).data, bannedChar x = false := by
  intro x hx
  have := (List.mem_filter.mp hx).2
  simpa using this

theorem noBanned_sanitize (s : String) : noBanned (sanitize s) = true := by
  simp only [noBanned, List.all_eq_true]
  intro x hx
  simp [bannedChar_sanitize s x hx]

theorem ctxNoBanned_sanitizeCtx (c : TranslationContext) :
    ctxNoBanned (sanitizeCtx c) = true := by
  obtain ⟨tx, ty, lb, ar, pl, vf, trs, ex⟩ := c
  unfold sanitizeCtx ctxNoBanned
  dsimp only
  simp only [Bool.and_eq_true]
  repeat' apply And.intro
  · exact noBanned_sanitize tx
  · exact noBanned_sanitize ty
  · exact noBanned_sanitize lb
  · exact noBanned_sanitize ex
  · cases ar with
    | none => rfl
    | some a =>
      dsimp only
      by_cases h : (a == "") = true
      · have ha : a = "" := by simpa using h
        subst ha
        rfl
      · rw [if_neg h]
        exact noBanned_sanitize a
  · cases pl with
    | none => rfl
    | some p =>
      dsimp only
      by_cases h : (p == "") = true
      · have hp : p = "" := by simpa using h
        subst hp
        rfl
      · rw [if_neg h]
        exact noBanned_sanitize p
  · cases vf with
    | none => rfl
    | some v => simp [noBanned_sanitize]
  · rw [List.all_eq_true]
    intro s hs
    rw [List.mem_map] at hs
    obtain ⟨s0, hs0, rfl⟩ := hs
    exact noBanned_sanitize s0

/-- C6 (amended): every `Translation` returned by `translate_ai` has no
markup-breaking character (`* _` backtick `[ ] < > &`) in any field of any
sense, and every sense's translations list is non-empty.  The
"every textual field non-empty after trimming" part of the original claim
holds of the fields as validated, but validation runs before sanitization,
so a field consisting solely of banned characters leaves `translate_ai`
empty — see the counterexample. -/
theorem C6_sanitized_output :
    ∀ (req : String) (resp : AiTranslatorResponse) (t : Translation),
      translate_ai req resp = .ok t →
      ∀ ctx ∈ t.response.contexts,
        ctxNoBanned ctx = true ∧ ctx.translations ≠ [] := by
  intro req resp t h ctx hctx
  unfold translate_ai at h
  split at h
  case isTrue hall =>
    injection h with h
    subst h
    dsimp only at hctx
    rw [List.mem_map] at hctx
    obtain ⟨c0, hc0, rfl⟩ := hctx
    refine ⟨ctxNoBanned_sanitizeCtx c0, ?_⟩
    have hv : validCtx c0 = true := by
      rw [List.all_eq_true] at hall
      exact hall c0 hc0
    unfold validCtx at hv
    simp only [Bool.and_eq_true] at hv
    have hne : c0.translations ≠ [] := by simpa using hv.1.2
    dsimp only [sanitizeCtx]
    simpa using hne
  case isFalse => cases h

/-- C6 counterexample: a sense whose `label` is the single character `*`
passes every pydantic validator, yet `translate_ai` returns it with the
label sanitized to the empty string — a textual field of the returned
result that is empty after trimming, refuting the non-emptiness part of the
claim. -/
theorem C6_counterexample_empty_field :
    translate_ai "Hund" { contexts := [starLabelContext] } =
      .ok { request := "Hund",
            response := { contexts := [{ hundContext with label := "" }] } } ∧
    nonEmptyStripped starLabelContext.label = true ∧
    nonEmptyStripped "" = false :=
  ⟨rfl, by decide, by decide⟩

/-- C6 witness: a fully clean response passes through with no banned
characters and non-empty translations. -/
theorem C6_sanitized_output_witness :
    translate_ai "Hund" { contexts := [hundContext] } = .ok sampleTranslation ∧
    (ctxNoBanned hundContext = true ∧ hundContext.translations ≠ []) :=
  ⟨rfl,
   C6_sanitized_output "Hund" { contexts := [hundContext] } sampleTranslation
     rfl hundContext (by decide)⟩

theorem cachePopOne_ttl [DecidableEq K] (st : CacheModel K V) :
    (cachePopOne st).ttl = st.ttl := by
  unfold cachePopOne
  split <;> rfl

theorem cachePopitem_ttl [DecidableEq K] (now : Nat) (st : CacheModel K V) :
    (cachePopitem now st).ttl = st.ttl := by
  unfold cachePopitem
  rw [cachePopOne_ttl]
  rfl

theorem cacheMakeRoom_ttl [DecidableEq K] (now fuel : Nat) (st : CacheModel K V) :
    (cacheMakeRoom now fuel st).ttl = st.ttl := by
  induction fuel generalizing st with
  | zero => rfl
  | succ f ih =>
    unfold cacheMakeRoom
    split
    · split
      · rfl
      · rw [ih, cachePopitem_ttl]
    · rfl

theorem cachePut_entries [DecidableEq K] (now : Nat) (k : K) (v : V)
    (st : CacheModel K V) :
    ∃ E, (cachePut now k v st).entries = E ++ [(k, v, now + st.ttl)] ∧
         ∀ e ∈ E, e.1 ≠ k := by
  unfold cachePut
  dsimp only
  by_cases hmem : k ∈ cacheKeys (cacheExpire now st)
  · rw [if_pos hmem]
    refine ⟨(cacheExpire now st).entries.filter (fun e => decide (e.1 ≠ k)), rfl, ?_⟩
    intro e he
    simpa using (List.mem_filter.mp he).2
  · rw [if_neg hmem]
    refine ⟨(cacheMakeRoom now ((cacheExpire now st).entries.length + 1)
        (cacheExpire now st)).entries.filter (fun e => decide (e.1 ≠ k)), ?_, ?_⟩
    · simp [cacheMakeRoom_ttl]
      rfl
    · intro e he
      simpa using (List.mem_filter.mp he).2

theorem cacheGet_of_entries [DecidableEq K] (now : Nat) (k : K) (v : V)
    (texp : Nat) (st : CacheModel K V) (E : List (K × V × Nat))
    (hE : st.entries = E ++ [(k, v, texp)]) (hk : ∀ e ∈ E, e.1 ≠ k) :
    (cacheGet now k st).1 = if texp ≤ now then none else some v := by
  unfold cacheGet
  rw [hE, List.find?_append]
  have h1 : E.find? (fun e => decide (e.1 = k)) = none := by
    rw [List.find?_eq_none]
    intro x hx
    simpa using hk x hx
  have h2 : ([(k, v, texp)].find? (fun e => decide (e.1 = k))) = some (k, v, texp) := by
    simp
  rw [h1, h2]
  dsimp only [Option.or]
  by_cases h : texp ≤ now <;> simp [h]

theorem cacheGet_cachePut [DecidableEq K] (T now : Nat) (k : K) (v : V)
    (st : CacheModel K V) :
    (cacheGet now k (cachePut T k v st)).1 =
      if T + st.ttl ≤ now then none else some v := by
  obtain ⟨E, hE, hk⟩ := cachePut_entries T k v st
  exact cacheGet_of_entries now k v (T + st.ttl) (cachePut T k v st) E hE hk

/-- C5 (amended): for a result inserted into the cache at time `T`, a get of
its token returns the result at every lookup time strictly below `T + 24h`
and returns absent at every lookup time `≥ T + 24h`.  The original claim's
boundary (`present at time ≤ T + 24h`) fails at exactly `T + 24h`, where
cachetools treats the entry as already expired — see the counterexample. -/
theorem C5_ttl_window :
    ∀ (st : BotCacheState) (T now : Nat) (tok : String) (v : Translation),
      st.ttl = CACHE_TTL_SECONDS →
      ((cacheGet now tok (cachePut T tok v st)).1 = some v ↔
        now < T + CACHE_TTL_SECONDS) := by
  intro st T now tok v httl
  rw [cacheGet_cachePut, httl]
  by_cases h : T + CACHE_TTL_SECONDS ≤ now
  · rw [if_pos h]
    simp
    omega
  · rw [if_neg h]
    simp
    omega

/-- C5 counterexample: an entry inserted at time 0 is absent at lookup time
exactly 86400 seconds (= T + 24h) even though that time is `≤ T + 24h`. -/
theorem C5_boundary_counterexample :
    (cacheGet 86400 "t" (cachePut 0 "t" sampleTranslation emptyBotCache)).1 =
      none ∧
    (86400 : Nat) ≤ 0 + CACHE_TTL_SECONDS := ⟨rfl, by decide⟩

/-- C5 witness: one second before the boundary the entry is still present. -/
theorem C5_ttl_window_witness :
    emptyBotCache.ttl = CACHE_TTL_SECONDS ∧
    ((cacheGet 86399 "t" (cachePut 0 "t" sampleTranslation emptyBotCache)).1 =
        some sampleTranslation ↔ (86399 : Nat) < 0 + CACHE_TTL_SECONDS) :=
  ⟨rfl, C5_ttl_window emptyBotCache 0 86399 "t" sampleTranslation rfl⟩

/-- C9: a collaborator response with an empty contexts list is accepted by
`translate_ai` (no validator rejects it); on a valid request `translate`
caches the result and offers the add control, with the fresh token
retrievable immediately; and an ADD activation on the empty result runs the
full sync lifecycle to completion — session opened, zero notes added,
cleanup run — and reports the full-success message counting 0 cards. -/
theorem C9_empty_contexts_flow :
    (∀ req : String,
        translate_ai req { contexts := [] } =
          .ok { request := req, response := { contexts := [] } }) ∧
    (∀ (env : BotEnv) (st : BotCacheState) (chatId : Int) (req : String)
        (t : Translation),
        validRequest env.isalnum req = true →
        env.aiResult = .ok t →
        st.ttl = CACHE_TTL_SECONDS →
        translateOp env st chatId req =
          ([{ chatId := chatId,
              text := translation_to_md env.cfg.sourceLanguage t,
              buttons := [CALLBACK_ADD_TO_ANKI ++ ":" ++ env.freshToken,
                          CALLBACK_RETRY ++ ":" ++ req] }],
           cachePut env.now env.freshToken t st, true) ∧
        (cacheGet env.now env.freshToken
            (cachePut env.now env.freshToken t st)).1 = some t) ∧
    (∀ (env : BotEnv) (chatId : Int) (req : String),
        env.anki.createOk = true → env.anki.loginOk = true →
        env.anki.syncOk = true → env.anki.fullDownloadOk = true →
        env.anki.pushOk = true →
        (add_to_anki env chatId
            { request := req, response := { contexts := [] } }).1 =
          [{ chatId := chatId, text := successText 0 req, buttons := [] }] ∧
        (add_to_anki env chatId
            { request := req, response := { contexts := [] } }).2.notesAdded = 0 ∧
        (add_to_anki env chatId
            { request := req, response := { contexts := [] } }).2.cleanupRan =
          true) := by
  refine ⟨fun req => rfl, ?_, ?_⟩
  · intro env st chatId req t hval hai httl
    constructor
    · simp [translateOp, hval, hai]
    · rw [cacheGet_cachePut, httl]
      have hlt : ¬(env.now + CACHE_TTL_SECONDS ≤ env.now) := by
        simp [CACHE_TTL_SECONDS]
      rw [if_neg hlt]
  · intro env chatId req hc hl hs hf hp
    have he : enterSession env.anki = .ok ⟨true, true, 0, 0, false⟩ := by
      by_cases hr : env.anki.syncRequired = 3 <;>
        simp [enterSession, initState, hc, hl, hs, hr, hf]
    have hrun : runAnkiSession env.anki 0 =
        (cleanup env.anki ⟨true, true, 0, 0, false⟩, none) := by
      unfold runAnkiSession
      rw [he]
      dsimp only [addCards]
      simp [hp]
    refine ⟨?_, ?_, ?_⟩ <;>
      simp [add_to_anki, hrun, cleanup_cardsAdded, cleanup_notesAdded,
        cleanup_cleanupRan]

/-- C9 witness: the full flow at a concrete environment — empty result
accepted, cached and offered, then materialized with the 0-card success
report. -/
theorem C9_empty_contexts_flow_witness :
    translate_ai "Hund" { contexts := [] } =
      .ok { request := "Hund", response := { contexts := [] } } ∧
    validRequest ({ sampleBotEnv with
        aiResult := .ok { request := "Hund", response := { contexts := [] } }
      } : BotEnv).isalnum "Hund" = true ∧
    emptyBotCache.ttl = CACHE_TTL_SECONDS ∧
    (cacheGet sampleBotEnv.now "3f2504e0-4f89-41d3-9a0c-0305e82c3301"
        (cachePut sampleBotEnv.now "3f2504e0-4f89-41d3-9a0c-0305e82c3301"
          { request := "Hund", response := { contexts := [] } }
          emptyBotCache)).1 =
      some { request := "Hund", response := { contexts := [] } } ∧
    (add_to_anki sampleBotEnv 7
        { request := "Hund", response := { contexts := [] } }).1 =
      [{ chatId := 7, text := successText 0 "Hund", buttons := [] }] := by
  have h2 := (C9_empty_contexts_flow.2.1
    { sampleBotEnv with
        aiResult := .ok { request := "Hund", response := { contexts := [] } } }
    emptyBotCache 7 "Hund"
    { request := "Hund", response := { contexts := [] } }
    (by decide) rfl rfl).2
  have h3 := (C9_empty_contexts_flow.2.2 sampleBotEnv 7 "Hund"
    rfl rfl rfl rfl rfl).1
  exact ⟨C9_empty_contexts_flow.1 "Hund", by decide, rfl, h2, h3⟩

theorem textNeAt (p q a b : String) (i : Nat)
    (hp : i < p.data.length) (hq : i < q.data.length)
    (h : p.data[i]? ≠ q.data[i]?) : p ++ a ≠ q ++ b := by
  intro he
  apply h
  rw [← constPrefix_getElem p a i hp, he, constPrefix_getElem q b i hq]

theorem textNeConst (p a q : String) (i : Nat)
    (hp : i < p.data.length) (h : p.data[i]? ≠ q.data[i]?) : p ++ a ≠ q := by
  intro he
  apply h
  rw [← constPrefix_getElem p a i hp, he]

theorem dataNeNil (s : String) (h : s ≠ "") : s.data ≠ [] := by
  intro hd
  apply h
  cases s with
  | mk l => cases hd; rfl

theorem addAnkiPayload_findIdx (tok : String) :
    (CALLBACK_ADD_TO_ANKI ++ ":" ++ tok).data.findIdx? (fun c => c == ':') =
      some 8 := by
  rw [String.data_append, List.findIdx?_append]
  have h : (CALLBACK_ADD_TO_ANKI ++ ":").data.findIdx? (fun c => c == ':') =
      some 8 := by decide
  rw [h]
  rfl

theorem addAnkiPayload_length (tok : String) :
    (CALLBACK_ADD_TO_ANKI ++ ":" ++ tok).data.length = 9 + tok.data.length := by
  rw [String.data_append, List.length_append]
  rfl

theorem addAnkiPayload_take (tok : String) :
    String.mk ((CALLBACK_ADD_TO_ANKI ++ ":" ++ tok).data.take 8) =
      CALLBACK_ADD_TO_ANKI := by
  rw [String.data_append]
  have h : (CALLBACK_ADD_TO_ANKI ++ ":").data = "add_anki".data ++ [':'] := by
    decide
  rw [h, List.append_assoc, List.take_left' (by decide)]
  rfl

theorem addAnkiPayload_drop (tok : String) :
    String.mk ((CALLBACK_ADD_TO_ANKI ++ ":" ++ tok).data.drop 9) = tok := by
  rw [String.data_append, List.drop_left' (by decide)]

/-- C3: `add_to_anki` always sends exactly one message; each outcome kind —
success, authentication failure, pull failure, push failure (whose text
carries the added-locally-but-not-synced caveat), and the unclassified
kinds — renders its dedicated text, and the six user-visible texts
(including the stale-correlation notice) are pairwise distinct for all
embedded payloads; an ADD activation whose token is absent from or expired
in the cache sends exactly the stale notice and opens no sync session. -/
theorem C3_distinct_outcome_messages :
    (∀ (env : BotEnv) (chatId : Int) (t : Translation),
        (add_to_anki env chatId t).1.length = 1) ∧
    (∀ (env : BotEnv) (chatId : Int) (t : Translation),
        (runAnkiSession env.anki t.response.contexts.length).2 = none →
        (add_to_anki env chatId t).1 =
          [{ chatId := chatId,
             text := successText
               (runAnkiSession env.anki t.response.contexts.length).1.cardsAdded
               t.request,
             buttons := [] }]) ∧
    (∀ (env : BotEnv) (chatId : Int) (t : Translation) (m : String),
        (runAnkiSession env.anki t.response.contexts.length).2 =
          some (.loginError m) →
        (add_to_anki env chatId t).1 =
          [{ chatId := chatId, text := loginFailText m, buttons := [] }]) ∧
    (∀ (env : BotEnv) (chatId : Int) (t : Translation) (m : String),
        (runAnkiSession env.anki t.response.contexts.length).2 =
          some (.downloadError m) →
        (add_to_anki env chatId t).1 =
          [{ chatId := chatId, text := downloadFailText m, buttons := [] }]) ∧
    (∀ (env : BotEnv) (chatId : Int) (t : Translation) (m : String),
        (runAnkiSession env.anki t.response.contexts.length).2 =
          some (.uploadError m) →
        (add_to_anki env chatId t).1 =
          [{ chatId := chatId, text := uploadFailText m, buttons := [] }]) ∧
    (∀ (env : BotEnv) (chatId : Int) (t : Translation) (m : String),
        (runAnkiSession env.anki t.response.contexts.length).2 =
          some (.runtimeError m) →
        (add_to_anki env chatId t).1 =
          [{ chatId := chatId, text := unexpectedText m, buttons := [] }]) ∧
    (∀ (env : BotEnv) (chatId : Int) (t : Translation) (m : String),
        (runAnkiSession env.anki t.response.contexts.length).2 =
          some (.otherError m) →
        (add_to_anki env chatId t).1 =
          [{ chatId := chatId, text := unexpectedText m, buttons := [] }]) ∧
    (∀ (n : Nat) (req e : String), successText n req ≠ loginFailText e) ∧
    (∀ (n : Nat) (req e : String), successText n req ≠ downloadFailText e) ∧
    (∀ (n : Nat) (req e : String), successText n req ≠ uploadFailText e) ∧
    (∀ (n : Nat) (req e : String), successText n req ≠ unexpectedText e) ∧
    (∀ (n : Nat) (req : String), successText n req ≠ staleText) ∧
    (∀ e1 e2 : String, loginFailText e1 ≠ downloadFailText e2) ∧
    (∀ e1 e2 : String, loginFailText e1 ≠ uploadFailText e2) ∧
    (∀ e1 e2 : String, loginFailText e1 ≠ unexpectedText e2) ∧
    (∀ e : String, loginFailText e ≠ staleText) ∧
    (∀ e1 e2 : String, downloadFailText e1 ≠ uploadFailText e2) ∧
    (∀ e1 e2 : String, downloadFailText e1 ≠ unexpectedText e2) ∧
    (∀ e : String, downloadFailText e ≠ staleText) ∧
    (∀ e1 e2 : String, uploadFailText e1 ≠ unexpectedText e2) ∧
    (∀ e : String, uploadFailText e ≠ staleText) ∧
    (∀ e : String, unexpectedText e ≠ staleText) ∧
    (∀ (env : BotEnv) (st : BotCacheState) (u chatId : Int) (tok : String),
        chatId ∈ env.cfg.users →
        tok ≠ "" →
        (cacheGet env.now tok st).1 = none →
        callback_query_handler env st u (some chatId)
            (some (CALLBACK_ADD_TO_ANKI ++ ":" ++ tok)) =
          ([{ chatId := chatId, text := staleText, buttons := [] }],
           (cacheGet env.now tok st).2, false)) := by
  refine ⟨?_, ?_, ?_, ?_, ?_, ?_, ?_,
    fun n req e => textNeAt _ _ _ _ 0 (by decide) (by decide) (by decide),
    fun n req e => textNeAt _ _ _ _ 0 (by decide) (by decide) (by decide),
    fun n req e => textNeAt _ _ _ _ 0 (by decide) (by decide) (by decide),
    fun n req e => textNeAt _ _ _ _ 0 (by decide) (by decide) (by decide),
    fun n req => textNeConst _ _ _ 0 (by decide) (by decide),
    fun e1 e2 => textNeAt _ _ _ _ 17 (by decide) (by decide) (by decide),
    fun e1 e2 => textNeAt _ _ _ _ 17 (by decide) (by decide) (by decide),
    fun e1 e2 => textNeAt _ _ _ _ 7 (by decide) (by decide) (by decide),
    fun e => textNeConst _ _ _ 0 (by decide) (by decide),
    fun e1 e2 => textNeAt _ _ _ _ 17 (by decide) (by decide) (by decide),
    fun e1 e2 => textNeAt _ _ _ _ 7 (by decide) (by decide) (by decide),
    fun e => textNeConst _ _ _ 0 (by decide) (by decide),
    fun e1 e2 => textNeAt _ _ _ _ 7 (by decide) (by decide) (by decide),
    fun e => textNeConst _ _ _ 0 (by decide) (by decide),
    fun e => textNeConst _ _ _ 0 (by decide) (by decide),
    ?_⟩
  · intro env chatId t
    unfold add_to_anki
    dsimp only
    cases h : (runAnkiSession env.anki t.response.contexts.length).2 with
    | none => rfl
    | some e => cases e <;> rfl
  · intro env chatId t h
    unfold add_to_anki
    dsimp only
    rw [h]
  · intro env chatId t m h
    unfold add_to_anki
    dsimp only
    rw [h]
  · intro env chatId t m h
    unfold add_to_anki
    dsimp only
    rw [h]
  · intro env chatId t m h
    unfold add_to_anki
    dsimp only
    rw [h]
  · intro env chatId t m h
    unfold add_to_anki
    dsimp only
    rw [h]
    rfl
  · intro env chatId t m h
    unfold add_to_anki
    dsimp only
    rw [h]
    rfl
  · intro env st u chatId tok hchat htok hnone
    simp only [callback_query_handler]
    rw [if_pos hchat, addAnkiPayload_findIdx]
    have hne : ¬((8 : Nat) = 0 ∨
        8 = (CALLBACK_ADD_TO_ANKI ++ ":" ++ tok).data.length - 1) := by
      rw [addAnkiPayload_length]
      have hd := dataNeNil tok htok
      have hlen : tok.data.length ≠ 0 := by
        intro h0
        exact hd (List.eq_nil_of_length_eq_zero h0)
      omega
    dsimp only
    rw [if_neg hne]
    rw [addAnkiPayload_take, addAnkiPayload_drop]
    rw [if_neg (by decide : ¬(CALLBACK_ADD_TO_ANKI = CALLBACK_RETRY)), if_pos rfl]
    rw [hnone]

/-- C3 witness: a concrete login-failure activation renders exactly the
authentication-failure message, and a concrete ADD activation with an
unknown token renders exactly the stale notice with no session opened. -/
theorem C3_distinct_outcome_messages_witness :
    (runAnkiSession ({ sampleBotEnv with
          anki := { okAnkiEnv with loginOk := false } } : BotEnv).anki
        sampleTranslation.response.contexts.length).2 =
      some (.loginError "Could not authenticate: login boom") ∧
    (add_to_anki
        { sampleBotEnv with anki := { okAnkiEnv with loginOk := false } }
        7 sampleTranslation).1 =
      [{ chatId := 7,
         text := loginFailText "Could not authenticate: login boom",
         buttons := [] }] ∧
    (7 : Int) ∈ sampleBotEnv.cfg.users ∧
    ("t" : String) ≠ "" ∧
    (cacheGet sampleBotEnv.now "t" emptyBotCache).1 = none ∧
    callback_query_handler sampleBotEnv emptyBotCache 99 (some 7)
        (some (CALLBACK_ADD_TO_ANKI ++ ":" ++ "t")) =
      ([{ chatId := 7, text := staleText, buttons := [] }],
       (cacheGet sampleBotEnv.now "t" emptyBotCache).2, false) := by
  obtain ⟨h1, h2, h3, h4, h5, h6, h7, d1, d2, d3, d4, d5, d6, d7, d8, d9,
    d10, d11, d12, d13, d14, d15, hstale⟩ := C3_distinct_outcome_messages
  have hrun : (runAnkiSession ({ sampleBotEnv with
        anki := { okAnkiEnv with loginOk := false } } : BotEnv).anki
      sampleTranslation.response.contexts.length).2 =
      some (.loginError "Could not authenticate: login boom") := rfl
  exact ⟨hrun,
    h3 { sampleBotEnv with anki := { okAnkiEnv with loginOk := false } }
      7 sampleTranslation "Could not authenticate: login boom" hrun,
    by decide, by decide, rfl,
    hstale sampleBotEnv emptyBotCache 99 7 "t" (by decide) (by decide) rfl⟩

theorem head?_filter_protected {α : Type} [DecidableEq α] (q : α → Bool)
    (L : List α) (k k' : α) (hne : k' ≠ k)
    (hmem : k' ∈ ((L.filter (fun x => decide (x ≠ k)) ++ [k]).filter q)) :
    (((L.filter (fun x => decide (x ≠ k)) ++ [k]).filter q)).head? ≠ some k := by
  rw [List.filter_append] at hmem ⊢
  have hk'A : k' ∈ (L.filter (fun x => decide (x ≠ k))).filter q := by
    rcases List.mem_append.mp hmem with h | h
    · exact h
    · exfalso
      have hk' := (List.mem_filter.mp h).1
      simp at hk'
      exact hne hk'
  obtain ⟨a, as, hA2⟩ :=
    List.exists_cons_of_ne_nil (List.ne_nil_of_mem hk'A)
  have haA : a ∈ (L.filter (fun x => decide (x ≠ k))).filter q := by
    rw [hA2]; exact List.mem_cons_self a as
  have h1 := (List.mem_filter.mp haA).1
  have h2 := (List.mem_filter.mp h1).2
  have hak : a ≠ k := by simpa using h2
  rw [hA2]
  simp [hak]

theorem cacheGet_snd_lru [DecidableEq K] (now : Nat) (k : K)
    (st : CacheModel K V) (e : K × V × Nat)
    (hfind : st.entries.find? (fun e => decide (e.1 = k)) = some e) :
    (cacheGet now k st).2.lru =
      st.lru.filter (fun x => decide (x ≠ k)) ++ [k] := by
  unfold cacheGet
  rw [hfind]
  dsimp only
  split <;> rfl

/-- C2 (amended): `get` is not side-effect-free with respect to eviction
ordering — a lookup of a present key moves it to the most-recent end of the
recency order (`TTLCache` is LRU-on-read), and eviction removes the
least-recently-used live entry, not the least-recently-inserted one.
Consequently, after a get of a present key `k`, `k` is never the next
eviction victim as long as any other live key remains. -/
theorem C2_get_refreshes_recency :
    ∀ (st : BotCacheState) (now : Nat) (k k' : String),
      k ∈ cacheKeys st →
      k' ≠ k →
      k' ∈ (cacheExpire now (cacheGet now k st).2).lru →
      nextVictim now (cacheGet now k st).2 ≠ some k := by
  intro st now k k' hk hne hlive
  obtain ⟨e, hfind⟩ :
      ∃ e, st.entries.find? (fun e => decide (e.1 = k)) = some e := by
    have hex : ∃ x, x ∈ st.entries ∧ (fun e => decide (e.1 = k)) x = true := by
      unfold cacheKeys at hk
      rw [List.mem_map] at hk
      obtain ⟨e, he, hek⟩ := hk
      exact ⟨e, he, by simp [hek]⟩
    exact Option.isSome_iff_exists.mp (List.find?_isSome.mpr hex)
  have hlru := cacheGet_snd_lru now k st e hfind
  have hlive' : k' ∈ ((cacheGet now k st).2.lru.filter
      (fun x => decide (x ∉ (((cacheGet now k st).2.entries.filter
        (fun e => decide (e.2.2 ≤ now))).map (fun e => e.1))))) := hlive
  rw [hlru] at hlive'
  have hgoal := head?_filter_protected
    (fun x => decide (x ∉ (((cacheGet now k st).2.entries.filter
      (fun e => decide (e.2.2 ≤ now))).map (fun e => e.1))))
    st.lru k k' hne hlive'
  have hvic : nextVictim now (cacheGet now k st).2 =
      (((cacheGet now k st).2.lru.filter
        (fun x => decide (x ∉ (((cacheGet now k st).2.entries.filter
          (fun e => decide (e.2.2 ≤ now))).map (fun e => e.1))))).head?) := rfl
  rw [hvic, hlru]
  exact hgoal

set_option maxRecDepth 100000 in
/-- C2 counterexample: with the bot's cache at its 128-entry capacity
(tokens `t0` … `t127` inserted at time 0), a single get of `t0` changes the
next eviction victim from `t0` to `t1`, and the 129th insertion then evicts
`t1` — the second-oldest-inserted — while the oldest-inserted `t0`
survives.  This refutes both parts of the claim: the get changed which
entry is evicted next, and the evicted entry is not the oldest-inserted
still-live one. -/
theorem C2_counterexample_lru_on_read :
    nextVictim 0 cacheTrace0 = some "t0" ∧
    nextVictim 0 cacheTrace1 = some "t1" ∧
    (cacheGet 0 "t0" cacheTrace2).1 = some sampleTranslation ∧
    (cacheGet 0 "t1" cacheTrace2).1 = none := by decide

/-- C2 witness: on a concrete two-entry cache, getting `a` protects it from
being the next eviction victim. -/
theorem C2_get_refreshes_recency_witness :
    ("a" : String) ∈ cacheKeys
      (cachePut 0 "b" sampleTranslation
        (cachePut 0 "a" sampleTranslation emptyBotCache)) ∧
    ("b" : String) ≠ "a" ∧
    "b" ∈ (cacheExpire 0 (cacheGet 0 "a"
      (cachePut 0 "b" sampleTranslation
        (cachePut 0 "a" sampleTranslation emptyBotCache))).2).lru ∧
    nextVictim 0 (cacheGet 0 "a"
      (cachePut 0 "b" sampleTranslation
        (cachePut 0 "a" sampleTranslation emptyBotCache))).2 ≠ some "a" :=
  ⟨by decide, by decide, by decide,
   C2_get_refreshes_recency
     (cachePut 0 "b" sampleTranslation
       (cachePut 0 "a" sampleTranslation emptyBotCache))
     0 "a" "b" (by decide) (by decide) (by decide)⟩
